import Mathlib

/-!
Verification of the salary-prediction core of `src/app.py` (Sri Lanka Salary
Predictor).  The app's arithmetic is done in Python/numpy floats; here it is
embedded over `ℚ` (exact rational arithmetic).  The external regression model
is abstracted as a function from the four integer codes to a number, exactly
as the spec treats it (`predict(vector of 4 ints) -> float`, a black box).
-/

namespace JobMarket

/-- Embedding of `le_city.transform([c])[0]` (src/app.py:289): a fitted label
encoder maps a category string to its position in the ordered class list.
For strings outside the class list the Python encoder raises; every use in
the app passes a member of `classes_`, and the theorems below carry that as a
hypothesis where it matters. -/
def transform (classes : List String) (c : String) : Nat :=
  classes.indexOf c

/-- Embedding of src/app.py:225-227: `adjusted_salary = raw_prediction`,
then `adjusted_salary = adjusted_salary / 12` when `is_annual` is checked. -/
def adjusted_salary (raw_prediction : ℚ) (is_annual : Bool) : ℚ :=
  if is_annual then raw_prediction / 12 else raw_prediction

/-- Embedding of src/app.py:228: `final_salary = adjusted_salary * currency_rate`.
This is the monthly figure in the reporting currency (`monthlyLKR`). -/
def final_salary (raw_prediction : ℚ) (is_annual : Bool) (currency_rate : ℚ) : ℚ :=
  adjusted_salary raw_prediction is_annual * currency_rate

/-- Embedding of src/app.py:229: `annual_salary = final_salary * 12`. -/
def annual_salary (raw_prediction : ℚ) (is_annual : Bool) (currency_rate : ℚ) : ℚ :=
  final_salary raw_prediction is_annual currency_rate * 12

/-- Embedding of src/app.py:253: `daily_rate = final_salary / 22`
(the fixed 22-working-days-per-month assumption). -/
def daily_rate (raw_prediction : ℚ) (is_annual : Bool) (currency_rate : ℚ) : ℚ :=
  final_salary raw_prediction is_annual currency_rate / 22

/-- Embedding of `model.predict([[job_num, exp_num, ind_num, c_num]])[0]` as used in
the comparison loop (src/app.py:289-290): the model is a black-box function of the
four codes, the city code being obtained from the encoder. -/
def predict_city (model : Nat → Nat → Nat → Nat → ℚ) (job_num exp_num ind_num : Nat)
    (le_city : List String) (c : String) : ℚ :=
  model job_num exp_num ind_num (transform le_city c)

/-- One row of `comparison_data` / `chart_df` (src/app.py:296-300).  The source
stores the marker column as the string `"Your City"` / `"Other"`; it is embedded
as the Bool `selected` (`true` ↔ `"Your City"`). -/
structure Entry where
  city : String
  monthly : ℚ
  selected : Bool
deriving DecidableEq

/-- Embedding of src/app.py:278-284: `comparison_cities` is a random sample of
cities (drawn from the cities other than the selected one, without replacement),
to which the selected `city` is appended, and the whole list is then sorted
in place (`comparison_cities.sort()`, lexicographic ascending). -/
def comparison_cities (sample : List String) (city : String) : List String :=
  List.insertionSort (fun a b => a ≤ b) (sample ++ [city])

/-- Embedding of the loop at src/app.py:288-300: for each city `c` of the sorted
list, re-run the prediction pipeline (predict, divide by 12 when annual, multiply
by the currency rate) and record the row.  `predictCity` is the model composed
with the city encoder (`predict_city` above, with job/experience/industry codes
fixed). -/
def comparison_data (predictCity : String → ℚ) (is_annual : Bool) (currency_rate : ℚ)
    (city : String) (cities : List String) : List Entry :=
  cities.map fun c =>
    { city := c
      monthly := final_salary (predictCity c) is_annual currency_rate
      selected := c == city }

/-- Embedding of src/app.py:334: `avg_salary = chart_df["Monthly Salary"].mean()`,
the arithmetic mean of the comparison rows' monthly salaries. -/
def avg_salary (entries : List Entry) : ℚ :=
  (entries.map Entry.monthly).sum / (entries.length : ℚ)

/-- Embedding of src/app.py:335:
`salary_diff = ((final_salary - avg_salary) / avg_salary) * 100`.
The source divides with no zero guard; over the reals the quotient is undefined
when the average is `0` (numpy float64 produces NaN or ±Infinity there), which
the rational embedding renders as `none`. -/
def salary_diff (final avg : ℚ) : Option ℚ :=
  if avg = 0 then none else some ((final - avg) / avg * 100)

/-- Embedding of src/app.py:347:
`ranking = (chart_df["Monthly Salary"] >= final_salary).sum()`, the number of
comparison rows whose monthly salary is at least the selected one. -/
def ranking (entries : List Entry) (final : ℚ) : Nat :=
  (entries.filter fun e => final ≤ e.monthly).length

/-- Embedding of the market-insights block, src/app.py:329-352.  In a Streamlit
rerun the script body executes fresh on each submission; `chart_df` is assigned
only inside the `if show_comparison:` block (src/app.py:271, 302), so it is
modelled as an `Option`, `none` when the comparison block did not run.  Reading
an unassigned local raises `NameError` in Python, modelled by the outer `none`.
On success the block yields `some (avg, diff, rank)` when insights were shown,
or `none` (inner) when the insights checkbox was off. -/
def insights_block (show_insights : Bool) (chart_df : Option (List Entry)) (final : ℚ) :
    Option (Option (ℚ × Option ℚ × Nat)) :=
  if show_insights then
    match chart_df with
    | none => none
    | some df => some (some (avg_salary df, salary_diff final (avg_salary df), ranking df final))
  else
    some none

/-- Embedding of the submitted-request flow relating the two display flags
(src/app.py:271, 302, 329): `chart_df` exists exactly when `show_comparison`
was set, and the insights block then runs on it. -/
def run_submission (show_comparison show_insights : Bool) (entries : List Entry)
    (final : ℚ) : Option (Option (ℚ × Option ℚ × Nat)) :=
  insights_block show_insights (if show_comparison then some entries else none) final

/-- Embedding of `load_data` (src/app.py:12-32).  The filesystem/unpickler is
abstracted as `fs : String → Option α` (`none` = `FileNotFoundError` for that
file name).  The structure mirrors the source exactly: the first attempt opens
`'salary_model.pickle'` (line 15); the `except FileNotFoundError` fallback
opens the very same `'salary_model.pickle'` again (line 19) — not the
`'salary_model.pkl'` name mentioned in the error message — and on a second
failure returns `(None, None)`; then `'encoders.pickle'` is opened (line 26),
with `(None, None)` on failure. -/
def load_data {α : Type} (fs : String → Option α) : Option α × Option α :=
  match fs "salary_model.pickle" with
  | some model =>
    match fs "encoders.pickle" with
    | some encoders => (some model, some encoders)
    | none => (none, none)
  | none =>
    match fs "salary_model.pickle" with
    | some model =>
      match fs "encoders.pickle" with
      | some encoders => (some model, some encoders)
      | none => (none, none)
    | none => (none, none)

/-- Python string formatting `f"{s:15}"` for a string value: left-justify,
padding with spaces on the right up to the field width, never truncating. -/
def padRight (s : String) (w : Nat) : String :=
  s ++ String.mk (List.replicate (w - s.length) ' ')

/-- Python string formatting `f"{s:>12}"`: right-justify, padding with spaces
on the left up to the field width, never truncating. -/
def padLeft (s : String) (w : Nat) : String :=
  String.mk (List.replicate (w - s.length) ' ') ++ s

/-- Comma grouping of Python's `,` format flag, on a little-endian list of
digit characters: a comma after every run of three digits counted from the
units end. -/
def group3 : List Char → List Char
  | a :: b :: c :: d :: rest => a :: b :: c :: ',' :: group3 (d :: rest)
  | l => l

/-- Rendering of one decimal digit as a character, `'0'` through `'9'`
(code points 48-57). -/
def digit_char (d : Nat) : Char :=
  Char.ofNat (48 + d % 10)

/-- Decimal rendering of a natural number with `,` thousands separators
(Python `f"{n:,}"` for the integer part). -/
def int_comma (n : Nat) : String :=
  if n = 0 then "0"
  else String.mk (group3 ((Nat.digits 10 n).map digit_char)).reverse

/-- The two digits after the decimal point, from the value in cents. -/
def frac2 (cents : Nat) : String :=
  String.mk [digit_char (cents / 10), digit_char cents]

/-- Embedding of Python `f"{x:,.2f}"`: round to two decimals and render with
thousands separators and exactly two digits after the point.  Ties here round
half-up on the magnitude; CPython rounds the binary float half-to-even — the
difference cannot change the shape of the output, which is what is at stake
in the report-format claim. -/
def format_comma_2f (q : ℚ) : String :=
  (if q < 0 then "-" else "") ++
    int_comma ((round (|q| * 100) : ℤ).toNat / 100) ++ "." ++
    frac2 ((round (|q| * 100) : ℤ).toNat % 100)

/-- Embedding of src/app.py:384, one line of the City Comparison section of
the downloadable report:
`f"{row['City']:15} LKR {row['Monthly Salary']:>12,.2f}\n"`. -/
def city_line (name : String) (amount : ℚ) : String :=
  padRight name 15 ++ " LKR " ++ padLeft (format_comma_2f amount) 12 ++ "\n"

end JobMarket

namespace JobMarket

/-- C1: the monthly figure is the raw output, divided by 12 exactly when the
annual flag is set, times the currency rate; and the annual figure is exactly
12 times the monthly figure (src/app.py:225-229). -/
theorem c1_period_adjustment (raw_prediction currency_rate : ℚ) (is_annual : Bool) :
    final_salary raw_prediction is_annual currency_rate =
      (if is_annual then raw_prediction / 12 else raw_prediction) * currency_rate
    ∧ annual_salary raw_prediction is_annual currency_rate =
      12 * final_salary raw_prediction is_annual currency_rate := by
  refine ⟨rfl, ?_⟩
  simp [annual_salary, mul_comm]

/-- C3: the daily rate is the monthly salary divided by exactly 22
(src/app.py:253). -/
theorem c3_daily_rate (raw_prediction currency_rate : ℚ) (is_annual : Bool) :
    daily_rate raw_prediction is_annual currency_rate =
      final_salary raw_prediction is_annual currency_rate / 22 := rfl

/-- C2: the percent-difference line src/app.py:335 has no zero guard.  With a
model that predicts 0 for every comparison city the average is 0, the quotient
`(final - avg) / avg` has no value over the rationals (numpy float64 yields
NaN/Infinity there, which flows into the metric and the downloadable report);
away from 0 the code does compute `(final - avg) / avg * 100`. -/
theorem c2_zero_average_unguarded :
    avg_salary (comparison_data (fun _ => 0) true 300 "Colombo" ["Colombo", "Kandy"]) = 0
    ∧ salary_diff (final_salary 0 true 300)
        (avg_salary (comparison_data (fun _ => 0) true 300 "Colombo" ["Colombo", "Kandy"]))
      = none
    ∧ salary_diff 300 100 = some 200 := by
  norm_num [comparison_data, avg_salary, salary_diff, final_salary, adjusted_salary]

/-- C4: for a duplicate-free sample that excludes the selected city (`np.random.choice`
over the other cities with `replace=False` guarantees both), the selected city occurs
exactly once in the sorted comparison list, the rows marked selected are exactly the
rows for the selected city, and no city occurs twice (src/app.py:277-300). -/
theorem c4_comparison_completeness (predictCity : String → ℚ) (is_annual : Bool)
    (currency_rate : ℚ) (sample : List String) (city : String)
    (hnd : sample.Nodup) (hcs : city ∉ sample) :
    (comparison_cities sample city).count city = 1
    ∧ (∀ e ∈ comparison_data predictCity is_annual currency_rate city
        (comparison_cities sample city), e.selected = true ↔ e.city = city)
    ∧ ((comparison_data predictCity is_annual currency_rate city
        (comparison_cities sample city)).map Entry.city).Nodup := by
  have hperm := List.perm_insertionSort (fun a b : String => a ≤ b) (sample ++ [city])
  have hmapc : (comparison_data predictCity is_annual currency_rate city
      (comparison_cities sample city)).map Entry.city = comparison_cities sample city := by
    simp [comparison_data, List.map_map, Function.comp_def]
  refine ⟨?_, ?_, ?_⟩
  · unfold comparison_cities
    rw [hperm.count_eq, List.count_append, List.count_eq_zero.2 hcs]
    simp
  · intro e he
    simp only [comparison_data, List.mem_map] at he
    obtain ⟨c, hc, rfl⟩ := he
    simp
  · rw [hmapc]
    refine (hperm.nodup_iff).2 ?_
    refine List.Nodup.append hnd (List.nodup_singleton city) ?_
    intro a ha hb
    rw [List.mem_singleton] at hb
    exact hcs (hb ▸ ha)

/-- C4 witness: concrete comparison with sample `["Kandy"]`, selected city
`"Colombo"`, and a constant model. -/
theorem c4_comparison_completeness_witness :
    (["Kandy"] : List String).Nodup ∧ "Colombo" ∉ (["Kandy"] : List String)
    ∧ ((comparison_cities ["Kandy"] "Colombo").count "Colombo" = 1
      ∧ (∀ e ∈ comparison_data (fun _ => (0 : ℚ)) true 300 "Colombo"
          (comparison_cities ["Kandy"] "Colombo"), e.selected = true ↔ e.city = "Colombo")
      ∧ ((comparison_data (fun _ => (0 : ℚ)) true 300 "Colombo"
          (comparison_cities ["Kandy"] "Colombo")).map Entry.city).Nodup) :=
  ⟨by decide, by decide,
    c4_comparison_completeness (fun _ => 0) true 300 ["Kandy"] "Colombo"
      (by decide) (by decide)⟩

/-- C5: `ranking` is the number of comparison rows whose monthly salary is at
least the selected one (src/app.py:347); the selected city's row carries exactly
the main `final_salary` (both come from the same model and the same codes), so
the rank is always between 1 and the number of comparison rows. -/
theorem c5_rank_bounds (model : Nat → Nat → Nat → Nat → ℚ)
    (job_num exp_num ind_num : Nat) (le_city : List String) (is_annual : Bool)
    (currency_rate : ℚ) (sample : List String) (city : String) :
    ranking (comparison_data (predict_city model job_num exp_num ind_num le_city)
        is_annual currency_rate city (comparison_cities sample city))
        (final_salary (predict_city model job_num exp_num ind_num le_city city)
          is_annual currency_rate)
      = ((comparison_data (predict_city model job_num exp_num ind_num le_city)
          is_annual currency_rate city (comparison_cities sample city)).filter
            fun e => final_salary (predict_city model job_num exp_num ind_num le_city city)
              is_annual currency_rate ≤ e.monthly).length
    ∧ (∀ e ∈ comparison_data (predict_city model job_num exp_num ind_num le_city)
        is_annual currency_rate city (comparison_cities sample city),
        e.city = city →
          e.monthly = final_salary (predict_city model job_num exp_num ind_num le_city city)
            is_annual currency_rate)
    ∧ 1 ≤ ranking (comparison_data (predict_city model job_num exp_num ind_num le_city)
        is_annual currency_rate city (comparison_cities sample city))
        (final_salary (predict_city model job_num exp_num ind_num le_city city)
          is_annual currency_rate)
    ∧ ranking (comparison_data (predict_city model job_num exp_num ind_num le_city)
        is_annual currency_rate city (comparison_cities sample city))
        (final_salary (predict_city model job_num exp_num ind_num le_city city)
          is_annual currency_rate)
      ≤ (comparison_data (predict_city model job_num exp_num ind_num le_city)
          is_annual currency_rate city (comparison_cities sample city)).length := by
  refine ⟨rfl, ?_, ?_, ?_⟩
  · intro e he
    simp only [comparison_data, List.mem_map] at he
    obtain ⟨c, hc, rfl⟩ := he
    intro h
    simp only at h
    rw [h]
  · have hcity : city ∈ comparison_cities sample city := by
      unfold comparison_cities
      rw [List.mem_insertionSort]
      exact List.mem_append_right _ (List.mem_singleton_self city)
    have hmem : ({ city := city
                   monthly := final_salary (predict_city model job_num exp_num ind_num le_city city)
                     is_annual currency_rate
                   selected := city == city } : Entry)
        ∈ comparison_data (predict_city model job_num exp_num ind_num le_city)
            is_annual currency_rate city (comparison_cities sample city) :=
      List.mem_map_of_mem _ hcity
    have hp : (fun e : Entry =>
        decide (final_salary (predict_city model job_num exp_num ind_num le_city city)
          is_annual currency_rate ≤ e.monthly))
        { city := city
          monthly := final_salary (predict_city model job_num exp_num ind_num le_city city)
            is_annual currency_rate
          selected := city == city } = true := by
      simp
    exact List.length_pos_of_mem (List.mem_filter.2 ⟨hmem, hp⟩)
  · exact List.length_filter_le _ _

/-- C6: the comparison list is sorted strictly ascending by city name, given a
duplicate-free sample that excludes the selected city (src/app.py:284). -/
theorem c6_sort_order (sample : List String) (city : String)
    (hnd : sample.Nodup) (hcs : city ∉ sample) :
    List.Sorted (fun a b : String => a < b) (comparison_cities sample city) := by
  have hs : List.Sorted (fun a b : String => a ≤ b) (comparison_cities sample city) :=
    List.sorted_insertionSort _ _
  have hn : (comparison_cities sample city).Nodup := by
    refine ((List.perm_insertionSort _ _).nodup_iff).2 ?_
    refine List.Nodup.append hnd (List.nodup_singleton city) ?_
    intro a ha hb
    rw [List.mem_singleton] at hb
    exact hcs (hb ▸ ha)
  exact (List.Pairwise.and hs hn).imp fun h => lt_of_le_of_ne h.1 h.2

/-- C6 witness: the concrete comparison list for sample `["Kandy"]` and
selected city `"Colombo"` is strictly sorted. -/
theorem c6_sort_order_witness :
    (["Kandy"] : List String).Nodup ∧ "Colombo" ∉ (["Kandy"] : List String)
    ∧ List.Sorted (fun a b : String => a < b) (comparison_cities ["Kandy"] "Colombo") :=
  ⟨by decide, by decide, c6_sort_order ["Kandy"] "Colombo" (by decide) (by decide)⟩

/-- C7: the sample drawn at src/app.py:278-282 has size
`min (num_cities - 1) (len(all_cities) - 1)`, so after appending the selected
city the comparison holds `min num_cities (len(all_cities))` entries — all
available cities when fewer than the requested count exist, with no error. -/
theorem c7_sample_clamping (predictCity : String → ℚ) (is_annual : Bool)
    (currency_rate : ℚ) (sample all_cities : List String) (city : String)
    (num_cities : Nat) (h1 : 1 ≤ num_cities) (hA : city ∈ all_cities)
    (hlen : sample.length = min (num_cities - 1) (all_cities.length - 1)) :
    (comparison_cities sample city).length = min num_cities all_cities.length
    ∧ (comparison_data predictCity is_annual currency_rate city
        (comparison_cities sample city)).length = min num_cities all_cities.length := by
  have hl : (comparison_cities sample city).length = sample.length + 1 := by
    unfold comparison_cities
    rw [List.length_insertionSort, List.length_append, List.length_singleton]
  have hA1 : 0 < all_cities.length := List.length_pos_of_mem hA
  constructor
  · rw [hl, hlen]
    omega
  · unfold comparison_data
    rw [List.length_map, hl, hlen]
    omega

/-- C7 witness: two cities in total and a requested count of 5 yield exactly
two comparison entries. -/
theorem c7_sample_clamping_witness :
    1 ≤ 5 ∧ "Colombo" ∈ (["Colombo", "Kandy"] : List String)
    ∧ (["Kandy"] : List String).length = min (5 - 1) ((["Colombo", "Kandy"] : List String).length - 1)
    ∧ ((comparison_cities ["Kandy"] "Colombo").length
        = min 5 (["Colombo", "Kandy"] : List String).length
      ∧ (comparison_data (fun _ => (0 : ℚ)) true 300 "Colombo"
          (comparison_cities ["Kandy"] "Colombo")).length
        = min 5 (["Colombo", "Kandy"] : List String).length) :=
  ⟨by decide, by decide, by decide,
    c7_sample_clamping (fun _ => 0) true 300 ["Kandy"] ["Colombo", "Kandy"] "Colombo" 5
      (by decide) (by decide) (by decide)⟩

/-- Appending strings concatenates their character data. -/
theorem string_data_append (a b : String) : (a ++ b).data = a.data ++ b.data := rfl

/-- The length of a string is the length of its character data. -/
theorem string_length_eq_data (s : String) : s.length = s.data.length := rfl

/-- Left-justification pads with spaces up to the field width and never
truncates. -/
theorem padRight_length (s : String) (w : Nat) : (padRight s w).length = max s.length w := by
  have h : (padRight s w).length = s.length + (w - s.length) := by
    show (s.data ++ List.replicate (w - s.length) ' ').length = s.length + (w - s.length)
    rw [List.length_append, List.length_replicate]
    rfl
  omega

/-- Right-justification pads with spaces up to the field width and never
truncates. -/
theorem padLeft_length (s : String) (w : Nat) : (padLeft s w).length = max s.length w := by
  have h : (padLeft s w).length = (w - s.length) + s.length := by
    show (List.replicate (w - s.length) ' ' ++ s.data).length = (w - s.length) + s.length
    rw [List.length_append, List.length_replicate]
    rfl
  omega

/-- The digit renderer never yields a decimal point. -/
theorem digit_char_ne_dot (d : Nat) : digit_char d ≠ '.' := by
  unfold digit_char
  have hk : d % 10 < 10 := Nat.mod_lt _ (by omega)
  generalize d % 10 = k at hk ⊢
  interval_cases k <;> decide

/-- Every character produced by the comma grouping is a character of the input
or a comma. -/
theorem group3_mem : ∀ l : List Char, ∀ ch ∈ group3 l, ch ∈ l ∨ ch = ','
  | [] => by
    intro ch h
    exact Or.inl h
  | [a] => by
    intro ch h
    exact Or.inl h
  | [a, b] => by
    intro ch h
    exact Or.inl h
  | [a, b, c] => by
    intro ch h
    exact Or.inl h
  | a :: b :: c :: d :: rest => by
    intro ch h
    have hg : group3 (a :: b :: c :: d :: rest) = a :: b :: c :: ',' :: group3 (d :: rest) := rfl
    rw [hg] at h
    simp only [List.mem_cons] at h ⊢
    rcases h with h | h | h | h | h
    · tauto
    · tauto
    · tauto
    · tauto
    · have h5 := group3_mem (d :: rest) ch h
      simp only [List.mem_cons] at h5
      tauto

/-- The comma-grouped integer rendering contains no decimal point. -/
theorem int_comma_no_dot (n : Nat) : '.' ∉ (int_comma n).data := by
  unfold int_comma
  split
  · decide
  · intro h
    have h2 : ('.' : Char) ∈ (group3 ((Nat.digits 10 n).map digit_char)).reverse := h
    rw [List.mem_reverse] at h2
    rcases group3_mem _ _ h2 with h3 | h3
    · obtain ⟨d, _, hd⟩ := List.mem_map.1 h3
      exact digit_char_ne_dot d hd
    · exact absurd h3 (by decide)

/-- The fractional part has exactly two characters. -/
theorem frac2_length (cents : Nat) : (frac2 cents).length = 2 := rfl

/-- The fractional part contains no decimal point. -/
theorem frac2_no_dot (cents : Nat) : '.' ∉ (frac2 cents).data := by
  intro h
  have h2 : ('.' : Char) ∈ [digit_char (cents / 10), digit_char cents] := h
  rcases List.mem_cons.1 h2 with h3 | h3
  · exact digit_char_ne_dot _ h3.symm
  · rcases List.mem_cons.1 h3 with h4 | h4
    · exact digit_char_ne_dot _ h4.symm
    · simp at h4

/-- The sign-and-integer part of the two-decimal rendering contains no decimal
point. -/
theorem sign_int_no_dot (q : ℚ) :
    '.' ∉ ((if q < 0 then "-" else "")
      ++ int_comma ((round (|q| * 100) : ℤ).toNat / 100)).data := by
  intro h
  rw [string_data_append] at h
  rcases List.mem_append.1 h with h1 | h1
  · split at h1
    · exact absurd h1 (by decide)
    · exact absurd h1 (by decide)
  · exact int_comma_no_dot _ h1

/-- C8: every City Comparison line of the report renders the city name
left-justified and space-padded to a field of 15 characters, then `" LKR "`,
then the monthly amount right-aligned in a field of 12 characters, the amount
carrying exactly one decimal point followed by exactly two digits
(src/app.py:384). -/
theorem c8_city_line_format (name : String) (q : ℚ) :
    ∃ pad1 pad2 intstr frac : String,
      city_line name q
          = (name ++ pad1) ++ " LKR " ++ (pad2 ++ (intstr ++ "." ++ frac)) ++ "\n"
      ∧ (name ++ pad1).length = max name.length 15
      ∧ (∀ ch ∈ pad1.data, ch = ' ')
      ∧ (pad2 ++ (intstr ++ "." ++ frac)).length = max (intstr ++ "." ++ frac).length 12
      ∧ (∀ ch ∈ pad2.data, ch = ' ')
      ∧ frac.length = 2
      ∧ '.' ∉ frac.data
      ∧ '.' ∉ intstr.data := by
  refine ⟨String.mk (List.replicate (15 - name.length) ' '),
    String.mk (List.replicate (12 - (format_comma_2f q).length) ' '),
    (if q < 0 then "-" else "") ++ int_comma ((round (|q| * 100) : ℤ).toNat / 100),
    frac2 ((round (|q| * 100) : ℤ).toNat % 100),
    rfl, ?_, ?_, ?_, ?_, frac2_length _, frac2_no_dot _, sign_int_no_dot q⟩
  · exact padRight_length name 15
  · intro ch h
    exact List.eq_of_mem_replicate h
  · exact padLeft_length (format_comma_2f q) 12
  · intro ch h
    exact List.eq_of_mem_replicate h

/-- C9: with the insights checkbox on and the comparison checkbox off, the
insights block reads the never-assigned `chart_df` and fails (Python raises
`NameError`); with the comparison built in the same request, the block always
produces a result (src/app.py:271, 302, 329-335). -/
theorem c9_insights_need_comparison (entries : List Entry) (final : ℚ) :
    run_submission false true entries final = none
    ∧ run_submission true true entries final =
        some (some (avg_salary entries, salary_diff final (avg_salary entries),
          ranking entries final))
    ∧ run_submission true false entries final = some none := by
  exact ⟨rfl, rfl, rfl⟩

/-- C10: whenever `'salary_model.pickle'` is missing, `load_data` returns
`(None, None)`: the fallback attempt at src/app.py:19 opens the same
`'salary_model.pickle'` path again, never the `'salary_model.pkl'` alternative
named in the error message, so an alternate artifact cannot be picked up. -/
theorem c10_fallback_same_path {α : Type} (fs : String → Option α)
    (h : fs "salary_model.pickle" = none) :
    load_data fs = (none, none) := by
  unfold load_data
  rw [h]

/-- C10 witness: a filesystem that holds only `'salary_model.pkl'` still makes
`load_data` return `(none, none)`. -/
theorem c10_fallback_same_path_witness :
    (fun s => if s = "salary_model.pkl" then some 0 else (none : Option Nat))
        "salary_model.pickle" = none
    ∧ load_data (fun s => if s = "salary_model.pkl" then some 0 else (none : Option Nat))
        = (none, none) :=
  ⟨by decide,
    c10_fallback_same_path (fun s => if s = "salary_model.pkl" then some 0 else none)
      (by decide)⟩

end JobMarket
